import Mathlib

/-!
Shallow embedding of `stock_app.py`: an EDINET financial-data retrieval
script.  The embedding models the document locator
(`search_docid_by_company_name`), the archive save step (`save_csv`), the
two metric extractors (`extract_financial_metrics` for tabular CSV data,
`extract_metrics_from_xbrl` for tagged XBRL data) and the orchestrator
(`fetch_data_by_docid`).

Modelling conventions:
* Python strings are Lean `String`s; `pat in s` (substring test),
  `str.strip`, `str.isdigit` and `str.endswith` are modelled list-wise
  over their characters.  `isdigit`/`strip` are modelled on the ASCII
  range, which covers every alias, tag value and literal the program
  manipulates.
* Python dicts built key-by-key are association lists in insertion order.
* Fallible external effects (HTTP requests, zip decoding, CSV parsing)
  are oracles returning `Option`: `none` models the call raising an
  exception (or, for a zip field, a corrupt archive).
-/

namespace StockApp

/-- Python `pat in s`: `pat` occurs as a contiguous substring of `s`
(case-sensitive; the empty pattern always matches). -/
def sublistAt (pat : List Char) : List Char → Bool
  | [] => pat.isEmpty
  | c :: t => pat.isPrefixOf (c :: t) || sublistAt pat t

/-- Python `pat in s` on strings. -/
def hasSubstr (s pat : String) : Bool :=
  sublistAt pat.toList s.toList

/-- Python `s.endswith(suffix)`. -/
def strEndsWith (s suffix : String) : Bool :=
  suffix.toList.isSuffixOf s.toList

/-- Python `s.strip()`: drop leading and trailing whitespace. -/
def pyStrip (s : String) : String :=
  ⟨((s.toList.dropWhile Char.isWhitespace).reverse.dropWhile Char.isWhitespace).reverse⟩

/-- Python `s.isdigit()`: `s` is non-empty and every character is a
decimal digit. -/
def pyIsdigit (s : String) : Bool :=
  !s.toList.isEmpty && s.toList.all Char.isDigit

/-! ## Tabular metric extractor (`extract_financial_metrics`) -/

/-- One row of the CSV table: the item-identifier column `項目ID`
(`none` models a missing/NaN cell, which `str.contains(.., na=False)`
together with `astype(str)` turning NaN into `"nan"` keeps out of every
canonical-keyword match) and the amount column `金額`. -/
structure Row where
  itemId : Option String
  amount : String
deriving Repr, DecidableEq

/-- The parsed CSV table: its column names and its rows. -/
structure Table where
  cols : List String
  rows : List Row
deriving Repr, DecidableEq

/-- The canonical metric keywords searched for in the tabular path. -/
def keywords : List String :=
  ["NetSales", "OperatingIncome", "OrdinaryIncome", "NetIncome"]

/-- Row filter used by the tabular extractor:
`df["項目ID"].astype(str).str.contains(kw, na=False)`. -/
def rowMatches (kw : String) (r : Row) : Bool :=
  match r.itemId with
  | none => false
  | some s => hasSubstr s kw

/-- The error value placed in the returned dict when a required column is
missing. -/
def fmtErrMsg : String := "CSVフォーマットが不明です（必要な列が存在しません）"

/-- Model of `extract_financial_metrics(df)`: if either required column is absent,
return the single-entry error dict; otherwise, for each keyword in order,
add an entry with the amount of the first matching row — keywords with no
matching row are omitted. -/
def extract_financial_metrics (t : Table) : List (String × String) :=
  if !(t.cols.contains "項目ID" && t.cols.contains "金額") then
    [("エラー", fmtErrMsg)]
  else
    keywords.filterMap (fun kw =>
      (t.rows.find? (rowMatches kw)).map (fun r => (kw, r.amount)))

/-! ## Tagged (XBRL) metric extractor (`extract_metrics_from_xbrl`) -/

/-- A named element of the parsed XBRL tree, listed in document order
(`soup.find(tag)` returns the first element whose name is `tag`). -/
structure XbrlElem where
  tag : String
  text : String
deriving Repr, DecidableEq

/-- Model of `soup.find(tag)`: the first element carrying the given tag name. -/
def findTag (doc : List XbrlElem) (t : String) : Option XbrlElem :=
  doc.find? (fun e => e.tag == t)

/-- The digit gate applied to the text of an element:
`found.text.strip().isdigit()`. -/
def acceptedText (s : String) : Bool :=
  pyIsdigit (pyStrip s)

/-- The alias table of the tagged extractor, in source order. -/
def tag_map : List (String × List String) :=
  [("NetSales", ["NetSales", "NetSalesConsolidated", "NetSalesOfReportingSegment"]),
   ("OperatingIncome", ["OperatingIncome", "OperatingIncomeConsolidated"]),
   ("OrdinaryIncome", ["OrdinaryIncome", "OrdinaryIncomeConsolidated"]),
   ("NetIncome", ["NetIncome", "Profit", "NetIncomeAttributableToOwnersOfParent"])]

/-- The inner alias loop: try each tag name in order; the first alias
whose element exists and passes the digit gate supplies the (stripped)
value; an alias whose element fails the gate is passed over. -/
def resolveTagged (doc : List XbrlElem) : List String → Option String
  | [] => none
  | t :: ts =>
    match findTag doc t with
    | some e => if acceptedText e.text then some (pyStrip e.text) else resolveTagged doc ts
    | none => resolveTagged doc ts

/-- The value an alias contributes, if any: the stripped
text of its first element when the digit gate passes. -/
def acceptedValue (doc : List XbrlElem) (t : String) : Option String :=
  match findTag doc t with
  | some e => if acceptedText e.text then some (pyStrip e.text) else none
  | none => none

/-- Model of `extract_metrics_from_xbrl`: one entry per canonical metric, in
`tag_map` order, defaulting to `"N/A"` when no alias yields an accepted
value. -/
def extract_metrics_from_xbrl (doc : List XbrlElem) : List (String × String) :=
  tag_map.map (fun lt => (lt.1, (resolveTagged doc lt.2).getD "N/A"))

/-! ## Document locator (`search_docid_by_company_name`)

Calendar days are absolute day numbers (`Int`); by convention day `0` is
a Monday, so the Python test `date.weekday() >= 5` (Saturday/Sunday) becomes
`d % 7 ≥ 5`.  The registry oracle maps a day to `some results` (the
listing of the day) or `none` (the request or JSON decoding raised, which the
`except` clause swallows). -/

/-- One record of the registry listing of a day. -/
structure FilingDoc where
  docID : String
  filerName : String
  docDescription : String
  csvFlag : String
deriving Repr, DecidableEq

/-- Model of `date.weekday() >= 5`: the day is a Saturday or a Sunday. -/
def isWeekend (d : Int) : Bool :=
  decide (5 ≤ d % 7)

/-- The record filter of the locator: `company_name in name and
"四半期報告書" in desc` (case-sensitive substring on both). -/
def docMatches (company_name : String) (doc : FilingDoc) : Bool :=
  hasSubstr doc.filerName company_name && hasSubstr doc.docDescription "四半期報告書"

/-- The locator loop: `days_back` iterations, each first stepping one
calendar day backward, skipping weekends, querying the registry
(failures swallowed) and returning the first matching record of the day. -/
def search_go (registry : Int → Option (List FilingDoc)) (company_name : String) :
    Int → Nat → Option FilingDoc
  | _, 0 => none
  | date, k + 1 =>
    let d := date - 1
    if isWeekend d then search_go registry company_name d k
    else
      match registry d with
      | none => search_go registry company_name d k
      | some docs =>
        match docs.find? (docMatches company_name) with
        | some doc => some doc
        | none => search_go registry company_name d k

/-- Model of `search_docid_by_company_name(company_name, days_back)` started on
day `today`; the Python quadruple `(docID, name, desc, csv_flag)` /
`(None, None, None, "0")` is modelled as `Option FilingDoc`. -/
def search_docid_by_company_name (registry : Int → Option (List FilingDoc))
    (company_name : String) (today : Int) (days_back : Nat) : Option FilingDoc :=
  search_go registry company_name today days_back

/-- The calendar window the locator examines: the `n` consecutive days
before `today`, most recent first. -/
def backWindow (today : Int) (n : Nat) : List Int :=
  (List.range n).map (fun i => today - 1 - Int.ofNat i)

/-- The locator loop instrumented with the number of registry queries it
issues (one per non-weekend day reached before returning). -/
def search_goCount (registry : Int → Option (List FilingDoc)) (company_name : String) :
    Int → Nat → Option FilingDoc × Nat
  | _, 0 => (none, 0)
  | date, k + 1 =>
    let d := date - 1
    if isWeekend d then search_goCount registry company_name d k
    else
      match registry d with
      | none =>
        let r := search_goCount registry company_name d k
        (r.1, r.2 + 1)
      | some docs =>
        match docs.find? (docMatches company_name) with
        | some doc => (some doc, 1)
        | none =>
          let r := search_goCount registry company_name d k
          (r.1, r.2 + 1)

/-! ## Archive save step (`save_csv`) -/

/-- The observable outcome of the HTTP request made by `save_csv`: the status code
and whether opening/extracting the downloaded bytes as a zip archive
succeeds (`zipOk = false` models `zipfile.ZipFile`/`extractall`
raising on a corrupt archive).  The whole oracle is `none` when
`requests.get` itself raises. -/
structure SaveResp where
  status : Nat
  zipOk : Bool
deriving Repr, DecidableEq

/-- What a `save_csv` call leaves behind: whether the temporary
`{docID}.zip` file still exists afterwards, and whether the call ended
by raising an exception. -/
structure SaveOutcome where
  tempZipExists : Bool
  raised : Bool
deriving Repr, DecidableEq

/-- Model of `save_csv(docID)`: on a non-200 status it returns before writing the
temp file; otherwise it writes `{docID}.zip`, extracts it, and only
after a successful extraction reaches `os.remove` — a raising
extraction skips the removal and leaves the temp file on disk. -/
def save_csv (env : Option SaveResp) : SaveOutcome :=
  match env with
  | none => ⟨false, true⟩
  | some r =>
    if r.status ≠ 200 then ⟨false, false⟩
    else if r.zipOk then ⟨false, false⟩
    else ⟨true, true⟩

/-! ## Orchestrator (`fetch_data_by_docid`) -/

/-- One entry of a downloaded zip archive: its name, the table
`pd.read_csv` would produce from it (`none` models `read_csv` raising)
and the element list `BeautifulSoup` would parse from it. -/
structure ZipEntry where
  name : String
  table : Option Table
  elems : List XbrlElem
deriving Repr, DecidableEq

/-- An HTTP response for a document download: its `Content-Type` header
and the entry list of its body as a zip archive (`none` models
`zipfile.ZipFile` raising on a corrupt body). -/
structure HttpResp where
  contentType : String
  entries : Option (List ZipEntry)
deriving Repr, DecidableEq

/-- The message of the terminal `ValueError`. -/
def errFetch : String := "CSV・XBRLともに取得できませんでした。"

/-- The CSV branch of `fetch_data_by_docid`: `none` when the branch
falls through to the XBRL branch (request raised, non-zip content type,
corrupt archive, no `.csv` entry, or `read_csv` raised on the first
`.csv` entry); `some` when the branch returns. -/
def attemptCSV : Option HttpResp → Option (List (String × String) × String)
  | none => none
  | some resp =>
    if hasSubstr resp.contentType "zip" then
      match resp.entries with
      | none => none
      | some es =>
        match es.find? (fun e => strEndsWith e.name ".csv") with
        | none => none
        | some e =>
          match e.table with
          | none => none
          | some t => some (extract_financial_metrics t, "CSV")
    else none

/-- The XBRL branch of `fetch_data_by_docid`: returns the metrics of the
first `PublicDoc` `.xbrl` entry of a zip response, `none` otherwise. -/
def attemptXBRL : Option HttpResp → Option (List (String × String) × String)
  | none => none
  | some resp =>
    if hasSubstr resp.contentType "zip" then
      match resp.entries with
      | none => none
      | some es =>
        match es.find? (fun e => hasSubstr e.name "PublicDoc" && strEndsWith e.name ".xbrl") with
        | none => none
        | some e => some (extract_metrics_from_xbrl e.elems, "XBRL")
    else none

/-- Model of `fetch_data_by_docid(doc_id, use_csv)`: when `use_csv` is set, try
the CSV branch and fall through to the XBRL branch on failure; when it
is not, go straight to the XBRL branch.  When the attempted branches all
fail, raise `ValueError` (modelled as `Except.error`). -/
def fetch_data_by_docid (csvResp xbrlResp : Option HttpResp) (use_csv : Bool) :
    Except String (List (String × String) × String) :=
  match (if use_csv then attemptCSV csvResp else none) with
  | some r => Except.ok r
  | none =>
    match attemptXBRL xbrlResp with
    | some r => Except.ok r
    | none => Except.error errFetch

/-! ## Helper lemmas -/

/-- Any value `resolveTagged` produces passed the digit gate. -/
lemma resolveTagged_isdigit (doc : List XbrlElem) :
    ∀ (ts : List String) (v : String), resolveTagged doc ts = some v → pyIsdigit v = true
  | [], v, h => by simp [resolveTagged] at h
  | t :: ts, v, h => by
    unfold resolveTagged at h
    cases hf : findTag doc t with
    | none =>
      simp only [hf] at h
      exact resolveTagged_isdigit doc ts v h
    | some e =>
      simp only [hf] at h
      by_cases ha : acceptedText e.text = true
      · rw [if_pos ha] at h
        cases h
        exact ha
      · rw [if_neg ha] at h
        exact resolveTagged_isdigit doc ts v h

/-- The key list of a `filterMap`-built tabular result is the keyword
list filtered by which keywords have a matching row. -/
lemma filterMap_keys (t : Table) :
    ∀ kws : List String,
      (kws.filterMap (fun kw =>
        (t.rows.find? (rowMatches kw)).map (fun r => (kw, r.amount)))).map Prod.fst =
      kws.filter (fun kw => (t.rows.find? (rowMatches kw)).isSome)
  | [] => rfl
  | kw :: kws => by
    cases hf : t.rows.find? (rowMatches kw) <;>
      simp [List.filterMap_cons, hf, filterMap_keys t kws]

end StockApp

namespace StockApp

/-- C9: `extract_metrics_from_xbrl` always returns the four canonical
keys in order, and every value is either the `"N/A"` sentinel or a
non-empty pure-digit string. -/
theorem xbrl_result_shape (doc : List XbrlElem) :
    (extract_metrics_from_xbrl doc).map Prod.fst =
      ["NetSales", "OperatingIncome", "OrdinaryIncome", "NetIncome"] ∧
    ∀ p ∈ extract_metrics_from_xbrl doc, p.2 = "N/A" ∨ pyIsdigit p.2 = true := by
  constructor
  · rfl
  · intro p hp
    simp only [extract_metrics_from_xbrl, List.mem_map] at hp
    obtain ⟨lt, _, rfl⟩ := hp
    cases hres : resolveTagged doc lt.2 with
    | none => left; simp [hres]
    | some v =>
      right
      simpa [hres] using resolveTagged_isdigit doc lt.2 v hres

/-- Witness for `xbrl_result_shape` at a concrete document and entry. -/
theorem xbrl_result_shape_witness :
    (("OperatingIncome", "500") : String × String).2 = "N/A" ∨
      pyIsdigit (("OperatingIncome", "500") : String × String).2 = true :=
  (xbrl_result_shape [⟨"OperatingIncome", "500"⟩]).2 ("OperatingIncome", "500") (by decide)

/-- C4: the text of an element is accepted exactly when its stripped form is a
non-empty all-digit string; `"1,234"` and `"¥500"` are rejected; on a
one-element document the extractor publishes the stripped text when the
gate passes and `"N/A"` when it does not. -/
theorem tagged_strict_digit_gate :
    (∀ s : String, acceptedText s = true ↔
      ((pyStrip s).toList ≠ [] ∧ ∀ c ∈ (pyStrip s).toList, c.isDigit = true)) ∧
    acceptedText "1,234" = false ∧ acceptedText "¥500" = false ∧
    (∀ s : String,
      extract_metrics_from_xbrl [⟨"OperatingIncome", s⟩] =
        [("NetSales", "N/A"),
         ("OperatingIncome", if acceptedText s then pyStrip s else "N/A"),
         ("OrdinaryIncome", "N/A"), ("NetIncome", "N/A")]) := by
  refine ⟨?_, by decide, by decide, ?_⟩
  · intro s
    simp [acceptedText, pyIsdigit, List.isEmpty_iff, List.all_eq_true]
  · intro s
    cases h : acceptedText s <;>
      simp [extract_metrics_from_xbrl, tag_map, resolveTagged, findTag, h]

/-- Witness for `tagged_strict_digit_gate`: its digit-gate reading at the
concrete input `"1,234"`. -/
theorem tagged_strict_digit_gate_witness : acceptedText "1,234" = false :=
  tagged_strict_digit_gate.2.1

/-- C5: aliases are tried in listed order; the first alias that yields an
accepted value supplies the result, whatever later aliases would match. -/
theorem alias_order_first_wins (doc : List XbrlElem) :
    ∀ (pre : List String) (A : String) (rest : List String) (v : String),
      (∀ t ∈ pre, acceptedValue doc t = none) →
      acceptedValue doc A = some v →
      resolveTagged doc (pre ++ A :: rest) = some v
  | [], A, rest, v, _, hA => by
    unfold acceptedValue at hA
    show resolveTagged doc (A :: rest) = some v
    unfold resolveTagged
    cases hf : findTag doc A with
    | none => simp only [hf] at hA; cases hA
    | some e =>
      simp only [hf] at hA ⊢
      by_cases ha : acceptedText e.text = true
      · rw [if_pos ha] at hA
        rw [if_pos ha]
        exact hA
      · rw [if_neg ha] at hA; cases hA
  | t :: pre, A, rest, v, hpre, hA => by
    have ht : acceptedValue doc t = none := hpre t (by simp)
    unfold acceptedValue at ht
    show resolveTagged doc (t :: (pre ++ A :: rest)) = some v
    unfold resolveTagged
    cases hf : findTag doc t with
    | none =>
      simp only [hf]
      exact alias_order_first_wins doc pre A rest v (fun u hu => hpre u (by simp [hu])) hA
    | some e =>
      simp only [hf] at ht ⊢
      by_cases ha : acceptedText e.text = true
      · rw [if_pos ha] at ht; cases ht
      · rw [if_neg ha]
        exact alias_order_first_wins doc pre A rest v (fun u hu => hpre u (by simp [hu])) hA

/-- Witness for `alias_order_first_wins`: with accepted matches for both
the earlier alias `NetSales` and the later alias `NetSalesConsolidated`,
the value of the earlier alias is selected. -/
theorem alias_order_first_wins_witness :
    resolveTagged [⟨"NetSales", "100"⟩, ⟨"NetSalesConsolidated", "200"⟩]
      ([] ++ "NetSales" :: ["NetSalesConsolidated"]) = some "100" :=
  alias_order_first_wins _ [] "NetSales" ["NetSalesConsolidated"] "100"
    (by simp) (by decide)

/-- C1 counterexample: a tabular extraction that completes successfully
(required columns present) returns only the matched metric — the three
unmatched canonical keys are omitted, not bound to a sentinel. -/
theorem tabular_omits_unmatched_cex :
    extract_financial_metrics ⟨["項目ID", "金額"], [⟨some "OperatingIncomeX", "5"⟩]⟩ =
      [("OperatingIncome", "5")] ∧
    (extract_financial_metrics
        ⟨["項目ID", "金額"], [⟨some "OperatingIncomeX", "5"⟩]⟩).lookup "NetSales" = none := by
  decide

/-- C1 amended: the tagged extractor always returns exactly the four
canonical keys; the tabular extractor, on a table with the required
columns, returns exactly the keywords that have a matching row (in
keyword order), omitting the rest. -/
theorem metric_keys_amended :
    (∀ doc : List XbrlElem, (extract_metrics_from_xbrl doc).map Prod.fst = keywords) ∧
    (∀ t : Table, (t.cols.contains "項目ID" && t.cols.contains "金額") = true →
      (extract_financial_metrics t).map Prod.fst =
        keywords.filter (fun kw => (t.rows.find? (rowMatches kw)).isSome)) := by
  constructor
  · intro doc; rfl
  · intro t h
    unfold extract_financial_metrics
    rw [h]
    exact filterMap_keys t keywords

/-- Witness for `metric_keys_amended` at a concrete well-formed table. -/
theorem metric_keys_amended_witness :
    (extract_financial_metrics ⟨["項目ID", "金額"], [⟨some "OperatingIncomeX", "5"⟩]⟩).map
        Prod.fst =
      keywords.filter (fun kw =>
        ((⟨["項目ID", "金額"], [⟨some "OperatingIncomeX", "5"⟩]⟩ : Table).rows.find?
          (rowMatches kw)).isSome) :=
  metric_keys_amended.2 ⟨["項目ID", "金額"], [⟨some "OperatingIncomeX", "5"⟩]⟩ (by decide)

end StockApp

namespace StockApp

/-- A well-formed CSV response whose table resolves `NetSales`. -/
def goodCsvResp : HttpResp :=
  ⟨"application/zip",
   some [⟨"XBRL_TO_CSV/jpcrp.csv",
          some ⟨["項目ID", "金額"], [⟨some "NetSalesConsolidated", "1000000"⟩]⟩, []⟩]⟩

/-- A well-formed XBRL response whose document resolves
`OperatingIncome`. -/
def goodXbrlResp : HttpResp :=
  ⟨"application/zip",
   some [⟨"XBRL/PublicDoc/0000000.xbrl", none, [⟨"OperatingIncome", "500"⟩]⟩]⟩

/-- A CSV table missing both required columns. -/
def badColsTable : Table := ⟨["提出日", "値"], [⟨some "NetSales", "1"⟩]⟩

/-- A well-formed CSV response whose table lacks the required columns. -/
def badColsCsvResp : HttpResp :=
  ⟨"application/zip", some [⟨"data.csv", some badColsTable, []⟩]⟩

/-- C2 counterexample: when the preferred representation is the tagged
one (`use_csv = False`) and its request raises, the terminal error is
raised at once even though the tabular representation is available and
would succeed — the alternate representation is never attempted. -/
theorem fallback_asymmetry_cex :
    fetch_data_by_docid (some goodCsvResp) none false = Except.error errFetch ∧
    attemptCSV (some goodCsvResp) = some ([("NetSales", "1000000")], "CSV") := by
  constructor <;> rfl

/-- C2 amended: with tabular preferred, failure falls through to exactly
one tagged attempt and the terminal error means both attempts failed;
with tagged preferred there is no fallback — the result never depends on
the tabular side, and the terminal error is raised exactly when the
tagged attempt alone fails. -/
theorem fallback_amended :
    (∀ c x, fetch_data_by_docid c x true = Except.error errFetch ↔
      (attemptCSV c = none ∧ attemptXBRL x = none)) ∧
    (∀ c c' x, fetch_data_by_docid c x false = fetch_data_by_docid c' x false) ∧
    (∀ c x, fetch_data_by_docid c x false = Except.error errFetch ↔ attemptXBRL x = none) := by
  refine ⟨fun c x => ?_, fun c c' x => rfl, fun c x => ?_⟩
  · unfold fetch_data_by_docid
    cases hc : attemptCSV c <;> cases hx : attemptXBRL x <;> simp
  · unfold fetch_data_by_docid
    cases hx : attemptXBRL x <;> simp

/-- Witness for `fallback_amended` at concrete responses. -/
theorem fallback_amended_witness :
    fetch_data_by_docid (some goodCsvResp) none true = Except.error errFetch ↔
      (attemptCSV (some goodCsvResp) = none ∧ attemptXBRL none = none) :=
  fallback_amended.1 (some goodCsvResp) none

/-- C3 counterexample: a tabular payload lacking the required columns is
returned as a successful `"CSV"` result carrying the single-entry error
dict; the tagged path — which here would succeed — is never attempted,
and no terminal error is reported. -/
theorem missing_columns_no_fallback_cex :
    fetch_data_by_docid (some badColsCsvResp) (some goodXbrlResp) true =
      Except.ok ([("エラー", fmtErrMsg)], "CSV") ∧
    attemptXBRL (some goodXbrlResp) =
      some ([("NetSales", "N/A"), ("OperatingIncome", "500"),
             ("OrdinaryIncome", "N/A"), ("NetIncome", "N/A")], "XBRL") := by
  constructor <;> rfl

/-- C3 amended: a table missing a required column yields the single
explanatory error entry (no crash, no per-metric errors), but the
orchestrator returns it as a successful `"CSV"` result without ever
attempting the tagged path. -/
theorem missing_columns_amended (t : Table)
    (h : (t.cols.contains "項目ID" && t.cols.contains "金額") = false) :
    extract_financial_metrics t = [("エラー", fmtErrMsg)] ∧
    ∀ x, fetch_data_by_docid (some ⟨"application/zip", some [⟨"data.csv", some t, []⟩]⟩) x true =
      Except.ok ([("エラー", fmtErrMsg)], "CSV") := by
  have h1 : extract_financial_metrics t = [("エラー", fmtErrMsg)] := by
    unfold extract_financial_metrics
    rw [h]
    rfl
  refine ⟨h1, fun x => ?_⟩
  have h2 : attemptCSV (some ⟨"application/zip", some [⟨"data.csv", some t, []⟩]⟩) =
      some (extract_financial_metrics t, "CSV") := rfl
  simp [fetch_data_by_docid, h2, h1]

/-- Witness for `missing_columns_amended` at the concrete bad table. -/
theorem missing_columns_amended_witness :
    extract_financial_metrics badColsTable = [("エラー", fmtErrMsg)] :=
  (missing_columns_amended badColsTable (by decide)).1

/-- C8 counterexample: a 200 response whose body fails zip extraction
raises out of `save_csv` with the temporary zip file still on disk — the
deletion is not unconditional. -/
theorem temp_zip_leak_cex :
    (save_csv (some ⟨200, false⟩)).tempZipExists = true ∧
    (save_csv (some ⟨200, false⟩)).raised = true := by decide

/-- C8 amended: the temporary zip is gone on every non-exceptional
return, and it is left behind only when the extraction step raises. -/
theorem temp_zip_amended (env : Option SaveResp) :
    ((save_csv env).raised = false → (save_csv env).tempZipExists = false) ∧
    ((save_csv env).tempZipExists = true → (save_csv env).raised = true) := by
  cases env with
  | none => simp [save_csv]
  | some r =>
    by_cases h : r.status = 200 <;> cases hz : r.zipOk <;> simp [save_csv, h, hz]

/-- Witness for `temp_zip_amended`: a successful call leaves no temp
file. -/
theorem temp_zip_amended_witness :
    (save_csv (some ⟨200, true⟩)).tempZipExists = false :=
  (temp_zip_amended (some ⟨200, true⟩)).1 (by decide)

end StockApp

namespace StockApp

/-- The scan window one step at a time: the most recent day first. -/
lemma backWindow_succ (today : Int) (n : Nat) :
    backWindow today (n + 1) = (today - 1) :: backWindow (today - 1) n := by
  unfold backWindow
  rw [List.range_succ_eq_map, List.map_cons, List.map_map]
  refine congrArg₂ _ (by norm_num) (List.map_congr_left fun i _ => ?_)
  simp only [Function.comp, Int.ofNat_eq_natCast, Nat.cast_succ]
  ring

/-- Applying `findSome?` to a constantly-failing function finds nothing. -/
lemma findSome?_const_none {α β : Type} (l : List α) :
    l.findSome? (fun _ => (none : Option β)) = none := by
  induction l with
  | nil => rfl
  | cons a l ih => simp [List.findSome?, ih]

/-- One unfolding step of the locator loop. -/
lemma search_go_succ (registry : Int → Option (List FilingDoc)) (name : String)
    (today : Int) (n : Nat) :
    search_go registry name today (n + 1) =
      if isWeekend (today - 1) then search_go registry name (today - 1) n
      else
        match registry (today - 1) with
        | none => search_go registry name (today - 1) n
        | some docs =>
          match docs.find? (docMatches name) with
          | some doc => some doc
          | none => search_go registry name (today - 1) n := rfl

/-- One unfolding step of the instrumented locator loop. -/
lemma search_goCount_succ (registry : Int → Option (List FilingDoc)) (name : String)
    (today : Int) (n : Nat) :
    search_goCount registry name today (n + 1) =
      if isWeekend (today - 1) then search_goCount registry name (today - 1) n
      else
        match registry (today - 1) with
        | none =>
          let r := search_goCount registry name (today - 1) n
          (r.1, r.2 + 1)
        | some docs =>
          match docs.find? (docMatches name) with
          | some doc => (some doc, 1)
          | none =>
            let r := search_goCount registry name (today - 1) n
            (r.1, r.2 + 1) := rfl

/-- Characterization of the locator loop: it returns the first hit of
the per-day matcher over the weekend-filtered backward window. -/
lemma search_go_eq_findSome (registry : Int → Option (List FilingDoc)) (name : String) :
    ∀ (n : Nat) (today : Int),
      search_go registry name today n =
        ((backWindow today n).filter (fun d => !isWeekend d)).findSome?
          (fun d => ((registry d).getD []).find? (docMatches name))
  | 0, today => by simp [search_go, backWindow]
  | n + 1, today => by
    rw [search_go_succ, backWindow_succ, List.filter_cons]
    by_cases hw : isWeekend (today - 1)
    · rw [if_pos hw, if_neg (by simp [hw])]
      exact search_go_eq_findSome registry name n (today - 1)
    · rw [if_neg hw, if_pos (by simp [hw]), List.findSome?_cons]
      cases hr : registry (today - 1) with
      | none =>
        simp only [hr, Option.getD_none, List.find?_nil]
        exact search_go_eq_findSome registry name n (today - 1)
      | some docs =>
        simp only [hr, Option.getD_some]
        cases hd : docs.find? (docMatches name) with
        | some doc => simp [hd]
        | none =>
          simp only [hd]
          exact search_go_eq_findSome registry name n (today - 1)

/-- The instrumented loop scans exactly as the plain loop does. -/
lemma search_goCount_fst (registry : Int → Option (List FilingDoc)) (name : String) :
    ∀ (n : Nat) (today : Int),
      (search_goCount registry name today n).1 = search_go registry name today n
  | 0, _ => rfl
  | n + 1, today => by
    rw [search_goCount_succ, search_go_succ]
    by_cases hw : isWeekend (today - 1)
    · rw [if_pos hw, if_pos hw]
      exact search_goCount_fst registry name n (today - 1)
    · rw [if_neg hw, if_neg hw]
      cases hr : registry (today - 1) with
      | none => simpa using search_goCount_fst registry name n (today - 1)
      | some docs =>
        cases hd : docs.find? (docMatches name) with
        | some doc => simp [hd]
        | none =>
          simp only [hd]
          simpa using search_goCount_fst registry name n (today - 1)

/-- The loop issues at most one registry query per non-weekend day of
the window. -/
lemma search_goCount_le (registry : Int → Option (List FilingDoc)) (name : String) :
    ∀ (n : Nat) (today : Int),
      (search_goCount registry name today n).2 ≤
        ((backWindow today n).filter (fun d => !isWeekend d)).length
  | 0, _ => Nat.le_refl 0
  | n + 1, today => by
    rw [search_goCount_succ, backWindow_succ, List.filter_cons]
    by_cases hw : isWeekend (today - 1)
    · rw [if_pos hw, if_neg (by simp [hw])]
      exact search_goCount_le registry name n (today - 1)
    · rw [if_neg hw, if_pos (by simp [hw]), List.length_cons]
      have ih := search_goCount_le registry name n (today - 1)
      cases hr : registry (today - 1) with
      | none => simpa using Nat.succ_le_succ ih
      | some docs =>
        cases hd : docs.find? (docMatches name) with
        | some doc => simp [hd]
        | none =>
          simp only [hd]
          simpa using Nat.succ_le_succ ih

/-- Dropping at least one element makes a filtered list strictly
shorter. -/
lemma length_filter_lt {α : Type} (p : α → Bool) (d : α) :
    ∀ l : List α, d ∈ l → p d = false → (l.filter p).length < l.length
  | [], hd, _ => absurd hd (List.not_mem_nil d)
  | a :: l, hd, hp => by
    rw [List.filter_cons, List.length_cons]
    rcases List.mem_cons.mp hd with rfl | hmem
    · rw [hp]
      exact Nat.lt_succ_of_le (List.length_filter_le p l)
    · have ih := length_filter_lt p d l hmem hp
      cases ha : p a with
      | true => simpa using Nat.succ_lt_succ ih
      | false => exact Nat.lt_succ_of_lt ih

end StockApp

namespace StockApp

/-- C6: the locator starts at the day before today, steps backward one
calendar day at a time, skips Saturdays and Sundays, and returns the
first record (in returned order, on the most recent eligible day) whose
filer name contains the pattern and whose description contains
`四半期報告書`; it returns `none` when the window is exhausted. -/
theorem locator_scan_spec (registry : Int → Option (List FilingDoc)) (name : String)
    (today : Int) (days_back : Nat) :
    search_docid_by_company_name registry name today days_back =
      ((backWindow today days_back).filter (fun d => !isWeekend d)).findSome?
        (fun d => ((registry d).getD []).find? (docMatches name)) :=
  search_go_eq_findSome registry name days_back today

/-- C7: replacing every failed per-day registry request by an empty
result list leaves the outcome of the scan unchanged (failures are swallowed
and the scan continues), and a registry failing on every day makes the
locator return the not-found result rather than an error. -/
theorem per_day_failure_swallowed :
    (∀ (registry : Int → Option (List FilingDoc)) (name : String) (today : Int) (n : Nat),
      search_docid_by_company_name registry name today n =
        search_docid_by_company_name (fun d => some ((registry d).getD [])) name today n) ∧
    (∀ (name : String) (today : Int) (n : Nat),
      search_docid_by_company_name (fun _ => (none : Option (List FilingDoc))) name today n =
        none) := by
  constructor
  · intro registry name today n
    show search_go registry name today n = search_go _ name today n
    rw [search_go_eq_findSome, search_go_eq_findSome]
    rfl
  · intro name today n
    show search_go (fun _ => none) name today n = none
    rw [search_go_eq_findSome]
    simp only [Option.getD_none, List.find?_nil]
    exact findSome?_const_none _

/-- C10: the scan window spans exactly `days_back` calendar days even
when some of them are weekends, the instrumented scan computes the same
result as the locator, and the presence of a weekend day in the window
makes the number of issued registry queries strictly smaller than
`days_back`. -/
theorem weekend_consumes_budget (registry : Int → Option (List FilingDoc)) (name : String)
    (today : Int) (days_back : Nat)
    (h : ∃ d ∈ backWindow today days_back, isWeekend d = true) :
    (backWindow today days_back).length = days_back ∧
    (search_goCount registry name today days_back).1 =
      search_docid_by_company_name registry name today days_back ∧
    (search_goCount registry name today days_back).2 < days_back := by
  have hlen : (backWindow today days_back).length = days_back := by
    simp [backWindow]
  refine ⟨hlen, search_goCount_fst registry name days_back today, ?_⟩
  obtain ⟨d, hd, hw⟩ := h
  have h1 := search_goCount_le registry name days_back today
  have h2 := length_filter_lt (fun d => !isWeekend d) d (backWindow today days_back) hd
    (by simp [hw])
  omega

/-- Witness for `weekend_consumes_budget`: a three-day window reaching
back over a weekend issues fewer than three queries. -/
theorem weekend_consumes_budget_witness :
    (search_goCount (fun _ => some []) "x" 7 3).2 < 3 :=
  (weekend_consumes_budget (fun _ => some []) "x" 7 3 (by decide)).2.2

end StockApp
